import Mathlib

/-!
Shallow embedding of the SparkApplication controller
(`pkg/controller/controller.go` of the spark-on-k8s-operator repository).

The controller reconciles SparkApplication resources: workers dequeue
`namespace/name` keys, look jobs up in a local store, and submit them;
asynchronous driver/executor/app state updates are folded into the
persisted status through an optimistic-concurrency retry protocol
(`updateSparkApplicationWithRetries` / `tryUpdate`).

External collaborators that are out of scope of the source file
(the v1alpha1 API types, `buildSubmissionCommandArgs`,
`createSparkUIService`, the hash inside `buildAppID`, the API server)
are modelled from the design document, as noted on each definition.
-/

namespace SparkOperator

/-- Modelled from the spec: timestamps (`metav1.Time`); zero means unset. -/
abbrev Time := Nat

/-- Modelled from the spec: `v1alpha1.ApplicationStateType`, a string-typed
enum with values New, Submitted, Running, Completed, Failed,
FailedSubmission, Unknown.  `EmptyState` stands for the Go zero value `""`
of the underlying string type (the state of an empty status). -/
inductive ApplicationStateType where
  | EmptyState
  | NewState
  | SubmittedState
  | RunningState
  | CompletedState
  | FailedState
  | FailedSubmissionState
  | UnknownState
  deriving DecidableEq, Repr

/-- Modelled from the spec: `v1alpha1.RestartPolicy` with values
Never, Undefined, OnFailure, Always. -/
inductive RestartPolicy where
  | Never
  | Undefined
  | OnFailure
  | Always
  deriving DecidableEq, Repr

/-- Modelled from the spec: `v1alpha1.ExecutorState`, a string-typed enum of
executor pod states; only Pending is distinguished by the controller. -/
inductive ExecutorState where
  | ExecutorPendingState
  | ExecutorRunningState
  | ExecutorCompletedState
  | ExecutorFailedState
  | ExecutorUnknownState
  deriving DecidableEq, Repr

/-- Modelled from the spec: `v1alpha1.ApplicationState` = state + error message. -/
structure ApplicationState where
  state : ApplicationStateType
  errorMessage : String
  deriving DecidableEq, Repr

/-- Modelled from the spec: `v1alpha1.DriverInfo` = pod name, web UI address
and port of the driver. -/
structure DriverInfo where
  podName : String
  webUIAddress : String
  webUIPort : Nat
  deriving DecidableEq, Repr

/-- Modelled from the spec: `v1alpha1.SparkApplicationStatus`.  The Go field
`ExecutorState` is a `map[string]v1alpha1.ExecutorState` that may be nil:
`none` models a nil map, `some m` an allocated map with association-list
entries (first match wins on lookup). -/
structure SparkApplicationStatus where
  appID : String
  appState : ApplicationState
  driverInfo : DriverInfo
  executorState : Option (List (String × ExecutorState))
  submissionTime : Time
  completionTime : Time
  deriving DecidableEq, Repr

/-- Modelled from the spec: the part of `v1alpha1.SparkApplicationSpec` the
controller file reads (the restart policy; submission parameters are only
consumed by the external `buildSubmissionCommandArgs`). -/
structure SparkApplicationSpec where
  restartPolicy : RestartPolicy
  deriving DecidableEq, Repr

/-- Modelled from the spec: a `v1alpha1.SparkApplication` resource:
object metadata identity plus immutable spec and mutable status. -/
structure SparkApplication where
  name : String
  ns : String
  uid : String
  spec : SparkApplicationSpec
  status : SparkApplicationStatus
  deriving DecidableEq, Repr

/-- The Go zero value `v1alpha1.SparkApplicationStatus{}` (all fields at
their zero values; the nil executor-state map is `none`). -/
def emptyStatus : SparkApplicationStatus :=
  { appID := ""
    appState := { state := .EmptyState, errorMessage := "" }
    driverInfo := { podName := "", webUIAddress := "", webUIPort := 0 }
    executorState := none
    submissionTime := 0
    completionTime := 0 }

/-- Go map assignment `m[k] = v` on the association-list model: the new
binding shadows and removes any previous binding of `k`. -/
def mapInsert (m : List (String × ExecutorState)) (k : String) (v : ExecutorState) :
    List (String × ExecutorState) :=
  (k, v) :: m.filter (fun p => !(p.1 == k))

/-- Lookup in a possibly-nil executor-state map: a nil map has no entries. -/
def entriesLookup (m : Option (List (String × ExecutorState))) (k : String) :
    Option ExecutorState :=
  (m.getD []).lookup k

/-- Extensional equality of two allocated maps, as `reflect.DeepEqual`
compares Go maps: same value (or common absence) at every key of either. -/
def mapEquiv (m1 m2 : List (String × ExecutorState)) : Bool :=
  m1.all (fun p => m2.lookup p.1 == m1.lookup p.1) &&
  m2.all (fun p => m1.lookup p.1 == m2.lookup p.1)

/-- `reflect.DeepEqual` on the executor-state field: a nil map and a non-nil
map are never deeply equal, two non-nil maps are compared extensionally. -/
def executorStateDeepEqual :
    Option (List (String × ExecutorState)) → Option (List (String × ExecutorState)) → Bool
  | none, none => true
  | some m1, some m2 => mapEquiv m1 m2
  | _, _ => false

/-- `reflect.DeepEqual(original.Status, toUpdate.Status)` (controller.go:430). -/
def statusDeepEqual (a b : SparkApplicationStatus) : Bool :=
  a.appID == b.appID &&
  a.appState == b.appState &&
  a.driverInfo == b.driverInfo &&
  executorStateDeepEqual a.executorState b.executorState &&
  a.submissionTime == b.submissionTime &&
  a.completionTime == b.completionTime

/-- `maximumUpdateRetries = 3` (controller.go:53). -/
def maximumUpdateRetries : Nat := 3

/-- Modelled from the spec: the persistence API (the CRD client), an external
collaborator.  `updateOutcome i` tells whether the i-th `Update` call is
accepted (false = conflict or other error); `getOutcome i` is the resource
returned by the i-th `Get` re-fetch (`none` = error). -/
structure ApiServer where
  updateOutcome : Nat → Bool
  getOutcome : Nat → Option SparkApplication

/-- The persistence API together with call counters, threaded through the
controller's operations so theorems can count persistence attempts. -/
structure ApiState where
  srv : ApiServer
  updateCalls : Nat
  getCalls : Nat

/-- One `SparkApplications(ns).Update(toUpdate)` call: returns the persisted
object on success, `none` on failure, and bumps the update-call counter. -/
def apiUpdate (st : ApiState) (app : SparkApplication) :
    Option SparkApplication × ApiState :=
  ((if st.srv.updateOutcome st.updateCalls then some app else none),
   { st with updateCalls := st.updateCalls + 1 })

/-- One `SparkApplications(ns).Get(name)` call: returns the latest resource
version, or `none` on error, and bumps the get-call counter. -/
def apiGet (st : ApiState) : Option SparkApplication × ApiState :=
  (st.srv.getOutcome st.getCalls, { st with getCalls := st.getCalls + 1 })

/-- Result of `tryUpdate` (controller.go:425-435): `(nil, nil)` when the
mutated status deep-equals the original, `(updated, nil)` on a successful
persistence call, `(nil, err)` on a failed one. -/
inductive TryUpdateResult where
  | noChange
  | persisted (app : SparkApplication)
  | failed
  deriving DecidableEq, Repr

/-- `tryUpdate` (controller.go:425-435): apply the mutation to the copy; if
the resulting status deep-equals the original's status, report no change
without touching the API; otherwise attempt one persistence call. -/
def tryUpdate (st : ApiState) (original toUpdate : SparkApplication)
    (updateFunc : SparkApplication → SparkApplication) :
    TryUpdateResult × ApiState :=
  let t := updateFunc toUpdate
  if statusDeepEqual original.status t.status then
    (.noChange, st)
  else
    match apiUpdate st t with
    | (some persisted, st1) => (.persisted persisted, st1)
    | (none, st1) => (.failed, st1)

/-- The retry loop body of `updateSparkApplicationWithRetries`
(controller.go:400-416), with the remaining iteration count as fuel:
a no-change or successful attempt returns immediately (`nil` respectively
the persisted object); a failed attempt re-fetches the latest version and
retries with the mutation re-applied to the fresh copy; a failed re-fetch
aborts with `nil`. -/
def updateWithRetriesAux :
    Nat → ApiState → SparkApplication → SparkApplication →
    (SparkApplication → SparkApplication) → Option SparkApplication × ApiState
  | 0, st, _, _, _ => (none, st)
  | n + 1, st, original, toUpdate, updateFunc =>
    match tryUpdate st original toUpdate updateFunc with
    | (.noChange, st1) => (none, st1)
    | (.persisted app, st1) => (some app, st1)
    | (.failed, st1) =>
      match apiGet st1 with
      | (some fresh, st2) => updateWithRetriesAux n st2 original fresh updateFunc
      | (none, st2) => (none, st2)

/-- `updateSparkApplicationWithRetries` (controller.go:395-423): up to
`maximumUpdateRetries` attempts; exhaustion logs and returns `nil`. -/
def updateSparkApplicationWithRetries (st : ApiState)
    (original toUpdate : SparkApplication)
    (updateFunc : SparkApplication → SparkApplication) :
    Option SparkApplication × ApiState :=
  updateWithRetriesAux maximumUpdateRetries st original toUpdate updateFunc

/-- What `s.store.GetByKey(key)` can report: an internal error, a missing
key, or the cached object (controller.go:438). -/
inductive StoreReply where
  | err (msg : String)
  | missing
  | found (app : SparkApplication)

/-- The error returned by `getSparkApplicationFromStore`: either the store's
own error, or the synthesised `StatusError` with reason NotFound
(controller.go:444-451). -/
inductive LookupError where
  | storeErr (msg : String)
  | notFound
  deriving DecidableEq, Repr

/-- `getSparkApplicationFromStore` (controller.go:437-454): propagate a store
error; turn a missing key into a NotFound `StatusError`. -/
def getSparkApplicationFromStore (store : String → StoreReply) (key : String) :
    Except LookupError SparkApplication :=
  match store key with
  | .err m => .error (.storeErr m)
  | .missing => .error .notFound
  | .found app => .ok app

/-- `getApplicationKey` (controller.go:456-458). -/
def getApplicationKey (ns name : String) : String :=
  ns ++ "/" ++ name

/-- `buildAppID` (controller.go:496-503): `"<name>-<hash>"` where the 32-bit
hash is seeded with name, namespace, UID and the current nanosecond
timestamp.  The hash function (`util.NewHash32`, external) and the clock are
abstracted as parameters. -/
def buildAppID (hash32 : String → Nat) (nowNanos : Nat) (app : SparkApplication) : String :=
  app.name ++ "-" ++
    toString (hash32 (app.name ++ app.ns ++ app.uid ++ toString nowNanos) % 2 ^ 32)

/-- The status-mutation closure `submitApp` passes to
`updateSparkApplicationWithRetries` (controller.go:246-254): on resubmission
first clear the whole status, then set a fresh app ID and state New.
`appIDof` abstracts `buildAppID(toUpdate)` (whose hash input includes the
current time, so its result is a function of the object it is given at each
replay).  `createSparkUIService` is external; modelled from the spec as an
idempotent side effect that does not touch the status. -/
def submitAppUpdateFunc (resubmission : Bool) (appIDof : SparkApplication → String)
    (toUpdate : SparkApplication) : SparkApplication :=
  let a1 := if resubmission then { toUpdate with status := emptyStatus } else toUpdate
  let a2 := { a1 with status := { a1.status with appID := appIDof a1 } }
  { a2 with status := { a2.status with
      appState := { a2.status.appState with state := .NewState } } }

/-- A submission handed to the runner: `newSubmission(submissionCmdArgs,
updatedApp)` (controller.go:268). -/
structure Submission where
  commandArgs : List String
  app : SparkApplication
  deriving DecidableEq, Repr

/-- `submitApp` (controller.go:245-269).  `buildArgs` abstracts the external
`buildSubmissionCommandArgs`, returning the argument value together with
whether it reported an error.  If the status update returned nil the
submission is abandoned; otherwise the command arguments are built — a
build failure is logged, and the source then falls through to
`s.runner.submit(...)` unconditionally.  The first component is the
submission handed to the runner (`none` = no `submit` call this cycle). -/
def submitApp (st : ApiState) (app : SparkApplication) (resubmission : Bool)
    (appIDof : SparkApplication → String)
    (buildArgs : SparkApplication → List String × Bool) :
    Option Submission × ApiState :=
  match updateSparkApplicationWithRetries st app app
      (submitAppUpdateFunc resubmission appIDof) with
  | (none, st1) => (none, st1)
  | (some updatedApp, st1) =>
    let argsAndErr := buildArgs updatedApp
    (some { commandArgs := argsAndErr.1, app := updatedApp }, st1)

/-- `syncSparkApplication` (controller.go:236-243): a store-lookup error —
including the NotFound one — is returned to the caller unchanged; otherwise
the job is submitted with `resubmission = false`. -/
def syncSparkApplication (store : String → StoreReply) (st : ApiState)
    (appIDof : SparkApplication → String)
    (buildArgs : SparkApplication → List String × Bool) (key : String) :
    Except LookupError (Option Submission × ApiState) :=
  match getSparkApplicationFromStore store key with
  | .error e => .error e
  | .ok app => .ok (submitApp st app false appIDof buildArgs)

/-- What `processNextItem` (controller.go:209-234) does with the dequeued key
after `syncSparkApplication` returns: forget it on a nil error, or report
the error and re-enqueue it rate-limited. -/
inductive QueueOutcome where
  | forgot
  | requeuedRateLimited
  deriving DecidableEq, Repr

/-- The disposition `processNextItem` gives a dequeued key, together with the
submission (if any) and the resulting API state (controller.go:216-233). -/
def processNextItemOutcome (store : String → StoreReply) (st : ApiState)
    (appIDof : SparkApplication → String)
    (buildArgs : SparkApplication → List String × Bool) (key : String) :
    QueueOutcome × Option Submission × ApiState :=
  match syncSparkApplication store st appIDof buildArgs key with
  | .ok r => (.forgot, r.1, r.2)
  | .error _ => (.requeuedRateLimited, none, st)

/-- `isAppTerminated` (controller.go:505-507). -/
def isAppTerminated (appState : ApplicationStateType) : Bool :=
  appState == .CompletedState || appState == .FailedState

/-- `driverPodPhaseToApplicationState` (controller.go:509-522).  `PodPhase`
is a string type in the Kubernetes API, so the argument is a `String` and
the four known constants are their string values. -/
def driverPodPhaseToApplicationState (podPhase : String) : ApplicationStateType :=
  if podPhase == "Pending" then .SubmittedState
  else if podPhase == "Running" then .RunningState
  else if podPhase == "Succeeded" then .CompletedState
  else if podPhase == "Failed" then .FailedState
  else .UnknownState

/-- `handleRestart` (controller.go:475-493): nothing for policy Never or
Undefined; for (Failed, OnFailure) or policy Always, emit a resubmission
event and call `submitApp(app, true)`; in every other case do nothing. -/
def handleRestart (st : ApiState) (app : SparkApplication)
    (appIDof : SparkApplication → String)
    (buildArgs : SparkApplication → List String × Bool) :
    Option Submission × ApiState :=
  if app.spec.restartPolicy == .Never || app.spec.restartPolicy == .Undefined then
    (none, st)
  else if (app.status.appState.state == .FailedState
            && app.spec.restartPolicy == .OnFailure)
          || app.spec.restartPolicy == .Always then
    submitApp st app true appIDof buildArgs
  else
    (none, st)

/-- An `executorStateUpdate` message (fields read by
`processSingleExecutorStateUpdate`). -/
structure ExecutorStateUpdate where
  appNamespace : String
  appName : String
  podName : String
  executorID : String
  state : ExecutorState
  deriving DecidableEq, Repr

/-- The status-mutation closure of `processSingleExecutorStateUpdate`
(controller.go:385-392): allocate the executor-state map when it is nil,
then record the update's state under the pod name unless it is Pending. -/
def executorStateUpdateFunc (update : ExecutorStateUpdate)
    (toUpdate : SparkApplication) : SparkApplication :=
  let m := toUpdate.status.executorState.getD []
  let m1 := if update.state ≠ .ExecutorPendingState
            then mapInsert m update.podName update.state
            else m
  { toUpdate with status := { toUpdate.status with executorState := some m1 } }

/-- `processSingleExecutorStateUpdate` (controller.go:368-393): look the job
up by key (a lookup error — NotFound swallowed, others logged — ends the
processing), then apply the executor-state mutation with retries. -/
def processSingleExecutorStateUpdate (store : String → StoreReply) (st : ApiState)
    (update : ExecutorStateUpdate) : Option SparkApplication × ApiState :=
  match getSparkApplicationFromStore store
      (getApplicationKey update.appNamespace update.appName) with
  | .error _ => (none, st)
  | .ok app =>
    updateSparkApplicationWithRetries st app app (executorStateUpdateFunc update)

/-! Concrete fixtures used by witnesses and scenario theorems. -/

/-- An API state with fresh call counters over the given outcome functions. -/
def mkApiState (uo : Nat → Bool) (go : Nat → Option SparkApplication) : ApiState :=
  { srv := { updateOutcome := uo, getOutcome := go }, updateCalls := 0, getCalls := 0 }

/-- An API server that accepts every update (re-fetches unused). -/
def alwaysOkApi : ApiState :=
  mkApiState (fun _ => true) (fun _ => none)

/-- An API server for retry scenarios: update outcomes given by `uo`,
re-fetches returning `g1` first and `g2` afterwards. -/
def retryApi (g1 g2 : SparkApplication) (uo : Nat → Bool) : ApiState :=
  mkApiState uo (fun i => if i == 0 then some g1 else some g2)

/-- A store with no objects at all. -/
def emptyStore : String → StoreReply := fun _ => .missing

/-- A freshly created job with the zero-valued status. -/
def appWordcount : SparkApplication :=
  { name := "wordcount", ns := "ns1", uid := "uid-1"
    spec := { restartPolicy := .Never }, status := emptyStatus }

/-- A deterministic stand-in for `buildAppID` in concrete scenarios. -/
def idWordcount : SparkApplication → String := fun a => a.name ++ "-1"

/-- A `buildSubmissionCommandArgs` stand-in that succeeds. -/
def okBuild : SparkApplication → List String × Bool := fun _ => (["spark-submit"], false)

/-- A `buildSubmissionCommandArgs` stand-in that fails, returning the
zero-valued argument slice alongside the error. -/
def failBuild : SparkApplication → List String × Bool := fun _ => ([], true)

/-! Claim theorems. -/

/-- C6: the driver-pod-phase-to-application-state mapping is a total,
deterministic function: Pending maps to Submitted, Running to Running,
Succeeded to Completed, Failed to Failed, and any other value to Unknown. -/
theorem driverPodPhase_mapping_total :
    driverPodPhaseToApplicationState "Pending" = .SubmittedState ∧
    driverPodPhaseToApplicationState "Running" = .RunningState ∧
    driverPodPhaseToApplicationState "Succeeded" = .CompletedState ∧
    driverPodPhaseToApplicationState "Failed" = .FailedState ∧
    ∀ p : String, p ≠ "Pending" → p ≠ "Running" → p ≠ "Succeeded" → p ≠ "Failed" →
      driverPodPhaseToApplicationState p = .UnknownState := by
  refine ⟨rfl, rfl, rfl, rfl, ?_⟩
  intro p h1 h2 h3 h4
  simp [driverPodPhaseToApplicationState, h1, h2, h3, h4]

/-- Witness for C6: the unrecognised phase "Evicted" maps to Unknown. -/
theorem driverPodPhase_mapping_total_witness :
    driverPodPhaseToApplicationState "Evicted" = .UnknownState :=
  driverPodPhase_mapping_total.2.2.2.2 "Evicted"
    (by decide) (by decide) (by decide) (by decide)

/-- C7: on resubmission, the status mutation of `submitApp(job, true)` first
resets the status to empty and then sets only a fresh appID and state New:
driverInfo, executorState, submissionTime, completionTime and errorMessage
are all at their zero values in the result. -/
theorem submitApp_resubmission_resets_status (app : SparkApplication)
    (appIDof : SparkApplication → String) (hne : app.status ≠ emptyStatus) :
    (submitAppUpdateFunc true appIDof app).status.appID
        = appIDof { app with status := emptyStatus } ∧
    (submitAppUpdateFunc true appIDof app).status.appState.state = .NewState ∧
    (submitAppUpdateFunc true appIDof app).status.driverInfo
        = { podName := "", webUIAddress := "", webUIPort := 0 } ∧
    (submitAppUpdateFunc true appIDof app).status.executorState = none ∧
    (submitAppUpdateFunc true appIDof app).status.submissionTime = 0 ∧
    (submitAppUpdateFunc true appIDof app).status.completionTime = 0 ∧
    (submitAppUpdateFunc true appIDof app).status.appState.errorMessage = "" := by
  refine ⟨rfl, rfl, rfl, rfl, rfl, rfl, rfl⟩

/-- Witness for C7 at a job with a non-empty prior status. -/
theorem submitApp_resubmission_resets_status_witness :
    ({ appWordcount with status := { emptyStatus with
        appID := "old", appState := { state := .FailedState, errorMessage := "boom" }
        executorState := some [("exec-1", .ExecutorFailedState)]
        submissionTime := 5, completionTime := 9 } } : SparkApplication).status
      ≠ emptyStatus ∧
    (submitAppUpdateFunc true idWordcount { appWordcount with status := { emptyStatus with
        appID := "old", appState := { state := .FailedState, errorMessage := "boom" }
        executorState := some [("exec-1", .ExecutorFailedState)]
        submissionTime := 5, completionTime := 9 } }).status.executorState = none :=
  ⟨by decide,
   (submitApp_resubmission_resets_status _ idWordcount (by decide)).2.2.2.1⟩

/-- C8: processing an ExecutorStateUpdate whose state is Pending never writes
an entry for that pod name: every key of the executor-state mapping looks up
to the same value before and after the mutation. -/
theorem executor_pending_never_written (app : SparkApplication)
    (u : ExecutorStateUpdate) (hp : u.state = .ExecutorPendingState) :
    ∀ k, entriesLookup (executorStateUpdateFunc u app).status.executorState k
        = entriesLookup app.status.executorState k := by
  intro k
  simp [executorStateUpdateFunc, hp, entriesLookup]

/-- Witness for C8: a Pending update against a job that already has one
executor entry leaves both that entry and the updated pod's absence intact. -/
theorem executor_pending_never_written_witness :
    entriesLookup (executorStateUpdateFunc
        { appNamespace := "ns1", appName := "wordcount", podName := "exec-2"
          executorID := "2", state := .ExecutorPendingState }
        { appWordcount with status := { emptyStatus with
            executorState := some [("exec-1", .ExecutorRunningState)] } }).status.executorState
      "exec-2"
    = entriesLookup (some [("exec-1", .ExecutorRunningState)]) "exec-2" :=
  executor_pending_never_written _ _ rfl "exec-2"

/-- C5: for a job in a terminal state, restart evaluation follows the table:
policy Never or Undefined does nothing; (Failed, OnFailure) resubmits;
policy Always resubmits regardless of the terminal state; (Completed,
OnFailure) does not resubmit — and resubmitting means invoking `submitApp`
with `resubmission = true`. -/
theorem handleRestart_policy_table (st : ApiState) (app : SparkApplication)
    (appIDof : SparkApplication → String)
    (buildArgs : SparkApplication → List String × Bool)
    (hterm : isAppTerminated app.status.appState.state = true) :
    ((app.spec.restartPolicy = .Never ∨ app.spec.restartPolicy = .Undefined) →
      handleRestart st app appIDof buildArgs = (none, st)) ∧
    (app.status.appState.state = .FailedState → app.spec.restartPolicy = .OnFailure →
      handleRestart st app appIDof buildArgs = submitApp st app true appIDof buildArgs) ∧
    (app.spec.restartPolicy = .Always →
      handleRestart st app appIDof buildArgs = submitApp st app true appIDof buildArgs) ∧
    (app.status.appState.state = .CompletedState → app.spec.restartPolicy = .OnFailure →
      handleRestart st app appIDof buildArgs = (none, st)) := by
  refine ⟨?_, ?_, ?_, ?_⟩
  · rintro (hp | hp) <;> simp [handleRestart, hp]
  · intro hs hp
    simp [handleRestart, hs, hp]
  · intro hp
    simp [handleRestart, hp]
  · intro hs hp
    simp [handleRestart, hs, hp]

/-- Witness for C5 at a Failed job with OnFailure policy: restart evaluation
invokes the submission trigger with resubmission = true. -/
theorem handleRestart_policy_table_witness :
    handleRestart alwaysOkApi
        { appWordcount with
            spec := { restartPolicy := .OnFailure }
            status := { emptyStatus with
              appState := { state := .FailedState, errorMessage := "" } } }
        idWordcount okBuild
      = submitApp alwaysOkApi
          { appWordcount with
              spec := { restartPolicy := .OnFailure }
              status := { emptyStatus with
                appState := { state := .FailedState, errorMessage := "" } } }
          true idWordcount okBuild :=
  (handleRestart_policy_table alwaysOkApi _ idWordcount okBuild (by decide)).2.1
    rfl rfl

/-- Helper: when the mutation leaves the status deep-equal to the original's,
the retry loop answers `nil` immediately and the API state is untouched. -/
theorem updateWithRetries_noChange (st : ApiState) (original toUpdate : SparkApplication)
    (f : SparkApplication → SparkApplication)
    (h : statusDeepEqual original.status (f toUpdate).status = true) :
    updateSparkApplicationWithRetries st original toUpdate f = (none, st) := by
  simp [updateSparkApplicationWithRetries, maximumUpdateRetries,
    updateWithRetriesAux, tryUpdate, h]

/-- Helper: the update-call counter grows by at most the fuel. -/
theorem updateWithRetriesAux_updateCalls_le (fuel : Nat) :
    ∀ (st : ApiState) (o t : SparkApplication) (f : SparkApplication → SparkApplication),
      ((updateWithRetriesAux fuel st o t f).2).updateCalls ≤ st.updateCalls + fuel := by
  induction fuel with
  | zero =>
    intro st o t f
    simp [updateWithRetriesAux]
  | succ n ih =>
    intro st o t f
    by_cases hde : statusDeepEqual o.status (f t).status = true
    · simp [updateWithRetriesAux, tryUpdate, hde]
    · by_cases hu : st.srv.updateOutcome st.updateCalls = true
      · simp [updateWithRetriesAux, tryUpdate, hde, apiUpdate, hu]
      · rcases hg : st.srv.getOutcome st.getCalls with _ | fresh
        · simp [updateWithRetriesAux, tryUpdate, hde, apiUpdate, hu, apiGet, hg]
        · have h := ih { st with updateCalls := st.updateCalls + 1, getCalls := st.getCalls + 1 } o fresh f
          dsimp only at h
          simp [updateWithRetriesAux, tryUpdate, hde, apiUpdate, hu, apiGet, hg]
          omega

/-- Helper: against `retryApi` with all updates refused, and a mutation that
keeps differing from the original status on every base, the retry loop makes
exactly `maximumUpdateRetries` persistence attempts and answers `nil`. -/
theorem updateWithRetries_allFail (original toUpdate g1 g2 : SparkApplication)
    (f : SparkApplication → SparkApplication)
    (h0 : statusDeepEqual original.status (f toUpdate).status = false)
    (h1 : statusDeepEqual original.status (f g1).status = false)
    (h2 : statusDeepEqual original.status (f g2).status = false) :
    (updateSparkApplicationWithRetries (retryApi g1 g2 (fun _ => false))
        original toUpdate f).1 = none ∧
    (updateSparkApplicationWithRetries (retryApi g1 g2 (fun _ => false))
        original toUpdate f).2.updateCalls = 3 := by
  simp [updateSparkApplicationWithRetries, maximumUpdateRetries, updateWithRetriesAux,
    tryUpdate, apiUpdate, apiGet, retryApi, mkApiState, h0, h1, h2]

/-- C4: whenever applying the mutation to the copy leaves the status
deep-equal to the original's status, the status updater returns nil — "no
update", not an error — and performs zero persistence calls (the API state,
update-call counter included, is untouched). -/
theorem updater_noChange_zero_persistence_calls (st : ApiState)
    (app : SparkApplication) (f : SparkApplication → SparkApplication)
    (h : statusDeepEqual app.status (f app).status = true) :
    updateSparkApplicationWithRetries st app app f = (none, st) ∧
    (updateSparkApplicationWithRetries st app app f).2.updateCalls = st.updateCalls := by
  refine ⟨updateWithRetries_noChange st app app f h, ?_⟩
  rw [updateWithRetries_noChange st app app f h]

/-- Witness for C4: the identity mutation on a concrete job. -/
theorem updater_noChange_zero_persistence_calls_witness :
    updateSparkApplicationWithRetries alwaysOkApi appWordcount appWordcount
        (fun a => a) = (none, alwaysOkApi) :=
  (updater_noChange_zero_persistence_calls alwaysOkApi appWordcount
    (fun a => a) (by decide)).1

/-- C3: the status updater makes at most 3 persistence attempts in total; if
the first two attempts fail and the third succeeds, the returned object is
the mutation applied to the last-fetched base (`g2`) and exactly 3
persistence attempts were made; if every attempt fails it returns nil after
exactly 3 attempts, escalating no error. -/
theorem updater_retry_protocol (original toUpdate g1 g2 : SparkApplication)
    (f : SparkApplication → SparkApplication)
    (h0 : statusDeepEqual original.status (f toUpdate).status = false)
    (h1 : statusDeepEqual original.status (f g1).status = false)
    (h2 : statusDeepEqual original.status (f g2).status = false) :
    (∀ st : ApiState,
      (updateSparkApplicationWithRetries st original toUpdate f).2.updateCalls
        ≤ st.updateCalls + maximumUpdateRetries) ∧
    (updateSparkApplicationWithRetries (retryApi g1 g2 (fun i => decide (2 ≤ i)))
        original toUpdate f).1 = some (f g2) ∧
    (updateSparkApplicationWithRetries (retryApi g1 g2 (fun i => decide (2 ≤ i)))
        original toUpdate f).2.updateCalls = 3 ∧
    (updateSparkApplicationWithRetries (retryApi g1 g2 (fun _ => false))
        original toUpdate f).1 = none ∧
    (updateSparkApplicationWithRetries (retryApi g1 g2 (fun _ => false))
        original toUpdate f).2.updateCalls = 3 := by
  refine ⟨?_, ?_, ?_,
    (updateWithRetries_allFail original toUpdate g1 g2 f h0 h1 h2).1,
    (updateWithRetries_allFail original toUpdate g1 g2 f h0 h1 h2).2⟩
  · intro st
    exact updateWithRetriesAux_updateCalls_le maximumUpdateRetries st original toUpdate f
  · simp [updateSparkApplicationWithRetries, maximumUpdateRetries, updateWithRetriesAux,
      tryUpdate, apiUpdate, apiGet, retryApi, mkApiState, h0, h1, h2]
  · simp [updateSparkApplicationWithRetries, maximumUpdateRetries, updateWithRetriesAux,
      tryUpdate, apiUpdate, apiGet, retryApi, mkApiState, h0, h1, h2]

/-- Witness for C3: a concrete conflict-then-success run.  The original has
the zero status; the mutation records state Running; the two re-fetched
bases carry different error messages, so the returned object shows the
mutation applied to the second fetch. -/
theorem updater_retry_protocol_witness :
    (updateSparkApplicationWithRetries
        (retryApi { appWordcount with status := { emptyStatus with appID := "a1" } }
                  { appWordcount with status := { emptyStatus with appID := "a2" } }
                  (fun i => decide (2 ≤ i)))
        appWordcount appWordcount
        (fun a => { a with status := { a.status with
          appState := { a.status.appState with state := .RunningState } } })).1
      = some { appWordcount with status := { emptyStatus with
          appID := "a2"
          appState := { state := .RunningState, errorMessage := "" } } } :=
  (updater_retry_protocol appWordcount appWordcount
      { appWordcount with status := { emptyStatus with appID := "a1" } }
      { appWordcount with status := { emptyStatus with appID := "a2" } }
      (fun a => { a with status := { a.status with
        appState := { a.status.appState with state := .RunningState } } })
      (by decide) (by decide) (by decide)).2.1

/-- C9: the status updater answers nil both when the mutation produced no
status change and when all persistence attempts failed, so the two outcomes
are indistinguishable to callers; consequently `submitApp` abandons the
submission — hands nothing to the Submission Subsystem — whenever the
mutation leaves the status deep-equal to the original, not only when
conflict retries are exhausted. -/
theorem updater_nil_ambiguous_submitApp_abandons (st : ApiState)
    (app g1 g2 : SparkApplication) (r : Bool)
    (appIDof : SparkApplication → String)
    (buildArgs : SparkApplication → List String × Bool) :
    (statusDeepEqual app.status (submitAppUpdateFunc r appIDof app).status = true →
      submitApp st app r appIDof buildArgs = (none, st)) ∧
    (statusDeepEqual app.status (submitAppUpdateFunc r appIDof app).status = false →
     statusDeepEqual app.status (submitAppUpdateFunc r appIDof g1).status = false →
     statusDeepEqual app.status (submitAppUpdateFunc r appIDof g2).status = false →
      (submitApp (retryApi g1 g2 (fun _ => false)) app r appIDof buildArgs).1 = none) := by
  constructor
  · intro h
    simp [submitApp, updateWithRetries_noChange st app app _ h]
  · intro h0 h1 h2
    have hfail := (updateWithRetries_allFail app app g1 g2
      (submitAppUpdateFunc r appIDof) h0 h1 h2).1
    rcases hres : updateSparkApplicationWithRetries (retryApi g1 g2 (fun _ => false))
        app app (submitAppUpdateFunc r appIDof) with ⟨o, st1⟩
    rw [hres] at hfail
    simp at hfail
    subst hfail
    simp [submitApp, hres]

/-- A job whose status already carries the app ID and New state the
submission mutation would set, so the mutation is a no-op on it. -/
def appAlreadyNew : SparkApplication :=
  { appWordcount with status := { emptyStatus with
      appID := "wordcount-1"
      appState := { state := .NewState, errorMessage := "" } } }

/-- Witness for C9: a job already in the target status is abandoned with no
submission, and so is a job whose updates all fail. -/
theorem updater_nil_ambiguous_submitApp_abandons_witness :
    submitApp alwaysOkApi appAlreadyNew false idWordcount okBuild
      = (none, alwaysOkApi) ∧
    (submitApp (retryApi appWordcount appWordcount (fun _ => false))
        appWordcount false idWordcount okBuild).1 = none :=
  ⟨(updater_nil_ambiguous_submitApp_abandons alwaysOkApi appAlreadyNew
      appWordcount appWordcount false idWordcount okBuild).1 (by decide),
   (updater_nil_ambiguous_submitApp_abandons alwaysOkApi appWordcount
      appWordcount appWordcount false idWordcount okBuild).2
     (by decide) (by decide) (by decide)⟩

/-- Helper: filtering out one key leaves lookups of every other key alone. -/
theorem lookup_filter_ne (m : List (String × ExecutorState)) (k k0 : String)
    (h : k ≠ k0) :
    (m.filter (fun p => !(p.1 == k0))).lookup k = m.lookup k := by
  induction m with
  | nil => rfl
  | cons p rest ih =>
    obtain ⟨pk, pv⟩ := p
    by_cases hpk : pk = k0
    · subst hpk
      have hb : (k == pk) = false := beq_eq_false_iff_ne.mpr h
      simp [List.filter_cons, List.lookup, hb, ih]
    · have hb1 : (pk == k0) = false := beq_eq_false_iff_ne.mpr hpk
      by_cases hkp : k = pk
      · subst hkp
        simp [List.filter_cons, List.lookup, hb1]
      · have hb2 : (k == pk) = false := beq_eq_false_iff_ne.mpr hkp
        simp [List.filter_cons, List.lookup, hb1, hb2, ih]

/-- An ExecutorStateUpdate with state Pending for the fixture job. -/
def pendingU : ExecutorStateUpdate :=
  { appNamespace := "ns1", appName := "wordcount", podName := "exec-1"
    executorID := "1", state := .ExecutorPendingState }

/-- A store holding only the fixture job under its key. -/
def storeWordcount : String → StoreReply :=
  fun k => if k == "ns1/wordcount" then .found appWordcount else .missing

/-- C10: the executor-state mutation touches no entry other than the
update's pod name; when the job's executor-state mapping is nil it always
replaces it with an allocated map — empty when the state is Pending — so a
status that differs under deep-equality can arise, and a persistence call
can occur, without any entry being added. -/
theorem executor_update_frame_and_nil_map :
    (∀ (app : SparkApplication) (u : ExecutorStateUpdate) (k : String),
      k ≠ u.podName →
      entriesLookup (executorStateUpdateFunc u app).status.executorState k
        = entriesLookup app.status.executorState k) ∧
    (∀ (app : SparkApplication) (u : ExecutorStateUpdate),
      app.status.executorState = none →
      (executorStateUpdateFunc u app).status.executorState
        = some (if u.state = .ExecutorPendingState then []
                else [(u.podName, u.state)])) ∧
    (statusDeepEqual appWordcount.status
        (executorStateUpdateFunc pendingU appWordcount).status = false ∧
     (executorStateUpdateFunc pendingU appWordcount).status.executorState
        = some [] ∧
     (processSingleExecutorStateUpdate storeWordcount alwaysOkApi
        pendingU).2.updateCalls = 1) := by
  refine ⟨?_, ?_, by decide, rfl, rfl⟩
  · intro app u k hk
    by_cases hp : u.state = .ExecutorPendingState
    · simp [executorStateUpdateFunc, hp, entriesLookup]
    · have hb : (k == u.podName) = false := beq_eq_false_iff_ne.mpr hk
      simp [executorStateUpdateFunc, hp, entriesLookup, mapInsert, List.lookup, hb]
      exact lookup_filter_ne _ _ _ hk
  · intro app u hnil
    by_cases hp : u.state = .ExecutorPendingState
    · simp [executorStateUpdateFunc, hp, hnil, mapInsert]
    · simp [executorStateUpdateFunc, hp, hnil, mapInsert]

/-- A job with one recorded executor entry. -/
def appWithExec1 : SparkApplication :=
  { appWordcount with status := { emptyStatus with
      executorState := some [("exec-1", .ExecutorFailedState)] } }

/-- A Running update for pod "exec-2" of the fixture job. -/
def runningU2 : ExecutorStateUpdate :=
  { appNamespace := "ns1", appName := "wordcount", podName := "exec-2"
    executorID := "2", state := .ExecutorRunningState }

/-- Witness for C10: a Running update for pod "exec-2" leaves the entry of
"exec-1" alone, and a nil map is allocated even by a Pending update. -/
theorem executor_update_frame_and_nil_map_witness :
    entriesLookup (executorStateUpdateFunc runningU2 appWithExec1).status.executorState "exec-1"
      = entriesLookup appWithExec1.status.executorState "exec-1" ∧
    (executorStateUpdateFunc pendingU appWordcount).status.executorState
      = some (if pendingU.state = .ExecutorPendingState then []
              else [(pendingU.podName, pendingU.state)]) :=
  ⟨executor_update_frame_and_nil_map.1 appWithExec1 runningU2 "exec-1" (by decide),
   executor_update_frame_and_nil_map.2.1 appWordcount pendingU rfl⟩

/-- C1 (code-bug evidence): dequeueing key "ns1/wordcount" against a store
that does not hold it, `syncSparkApplication` returns the synthesised
NotFound error unchanged, so `processNextItem` reports the error and
re-enqueues the key rate-limited instead of forgetting it. -/
theorem notFound_key_requeued_not_forgotten :
    (processNextItemOutcome emptyStore alwaysOkApi idWordcount okBuild
        "ns1/wordcount").1 = .requeuedRateLimited ∧
    syncSparkApplication emptyStore alwaysOkApi idWordcount okBuild
        "ns1/wordcount" = .error .notFound :=
  ⟨rfl, rfl⟩

/-- C2 (code-bug evidence): when building the submission command arguments
fails, `submitApp` logs but falls through — the submission, carrying the
zero-valued argument slice, is still handed to the runner. -/
theorem build_failure_still_submits :
    (submitApp alwaysOkApi appWordcount false idWordcount failBuild).1
      = some { commandArgs := []
               app := submitAppUpdateFunc false idWordcount appWordcount } := by
  rfl

end SparkOperator
